import Mathlib

/-!
Verification development for the AI_agent repository.

Shallow embedding conventions used throughout this file:
* Python machine floats are modelled by exact rationals (`Q`); every claim in
  scope only exercises arithmetic that is exact in binary floating point
  (halving, small integer sums), where float and rational results coincide.
  Results of transcendental library calls (`math.sqrt`, `math.pow`, ...) are
  kept as opaque symbolic values instead of being approximated.
* A Python function that can raise is modelled as `Except String α`; the
  `String` is the exception text (`str(e)`).
* Python dictionaries are modelled as association lists in insertion order;
  `dict.__setitem__` replaces in place or appends, `del` removes the entry,
  `==` compares as finite maps.
* Wall-clock data (timestamps, durations) is not modelled; no claim in scope
  mentions it.
-/

deriving instance DecidableEq for Except

namespace AIAgent

/-! ### Exact rational numbers with kernel-computable arithmetic

Python floats are modelled as exact rationals.  Mathlib's `Rat` arithmetic
normalizes through `Nat.gcd`, which is defined by well-founded recursion
and does not reduce inside the kernel, so concrete witnesses could not be
checked by `decide`.  `Q` below is a normalized fraction type whose gcd
uses structural fuel recursion and therefore evaluates everywhere. -/

structure Q where
  num : Int
  den : Nat
  deriving Repr, DecidableEq

/-- Euclidean gcd with structural fuel; `fuel = a + 1` always suffices. -/
def qGcdAux : Nat → Nat → Nat → Nat
  | 0, _, b => b
  | fuel + 1, a, b => if a = 0 then b else qGcdAux fuel (b % a) a

def natGcd (a b : Nat) : Nat := qGcdAux (a + 1) a b

/-- Normalized fraction `n / d` (for `d ≠ 0`; the `d = 0` case is junk and
is always guarded before use, mirroring Python's `ZeroDivisionError`). -/
def mkQ (n d : Int) : Q :=
  if d = 0 then ⟨0, 0⟩
  else
    let s : Int := if d < 0 then -1 else 1
    let n2 := s * n
    let d2 := (s * d).toNat
    let g := natGcd n2.natAbs d2
    if g = 0 then ⟨0, 1⟩ else ⟨n2 / (g : Int), d2 / g⟩

instance : OfNat Q n := ⟨⟨Int.ofNat n, 1⟩⟩

instance : Neg Q := ⟨fun a => ⟨-a.num, a.den⟩⟩

instance : Add Q :=
  ⟨fun a b => mkQ (a.num * (b.den : Int) + b.num * (a.den : Int))
    ((a.den : Int) * (b.den : Int))⟩

instance : Sub Q :=
  ⟨fun a b => mkQ (a.num * (b.den : Int) - b.num * (a.den : Int))
    ((a.den : Int) * (b.den : Int))⟩

instance : Mul Q := ⟨fun a b => mkQ (a.num * b.num) ((a.den : Int) * (b.den : Int))⟩

instance : Div Q := ⟨fun a b => mkQ (a.num * (b.den : Int)) ((a.den : Int) * b.num)⟩

instance : LE Q := ⟨fun a b => a.num * (b.den : Int) ≤ b.num * (a.den : Int)⟩

instance : LT Q := ⟨fun a b => a.num * (b.den : Int) < b.num * (a.den : Int)⟩

instance (a b : Q) : Decidable (a ≤ b) :=
  inferInstanceAs (Decidable (a.num * (b.den : Int) ≤ b.num * (a.den : Int)))

instance (a b : Q) : Decidable (a < b) :=
  inferInstanceAs (Decidable (a.num * (b.den : Int) < b.num * (a.den : Int)))

instance : Min Q := ⟨fun a b => if a ≤ b then a else b⟩

instance : Max Q := ⟨fun a b => if a ≤ b then b else a⟩

instance : NatCast Q := ⟨fun n => ⟨Int.ofNat n, 1⟩⟩

def qPow (q : Q) : Nat → Q
  | 0 => 1
  | n + 1 => q * qPow q n

instance : Pow Q Nat := ⟨qPow⟩

/-! ### Embedding of `src/fallback_llm.py` (`FallbackLLMClient`) -/

/-- The literal fallback order assigned in `FallbackLLMClient.__init__`
(src/fallback_llm.py line 75). -/
def fallback_order : List String := ["deepseek", "doubao", "qwen"]

/-- Helper of `pySplitWs`: whitespace-run splitting over a character list
(kernel-computable, unlike `String.split`). -/
def splitWsAux : List Char → List Char → List String
  | [], acc => if acc = [] then [] else [String.mk acc.reverse]
  | c :: cs, acc =>
      if c.isWhitespace then
        if acc = [] then splitWsAux cs []
        else String.mk acc.reverse :: splitWsAux cs []
      else splitWsAux cs (c :: acc)

/-- Python `s.split()` (also `s.strip().split()`): split on whitespace
runs, dropping empty pieces. -/
def pySplitWs (s : String) : List String := splitWsAux s.toList []

/-- Word count of `text.split()` in Python. -/
def pyWordCount (s : String) : Nat := (pySplitWs s).length

/-- One per-provider attempt record appended to `log_data["attempts"]`.
Timing fields (`attempt_time`, `duration_ms`) are not modelled. -/
structure AttemptRecord where
  apiName : String
  success : Bool
  error : Option String
  response : Option String
  deriving Repr, DecidableEq

/-- The `final_result` object of one call-log line: either
`{success: true, used_api: ...}` or `{success: false, error: ...}`. -/
inductive FinalResult where
  | succOf (usedApi : String)
  | failWith (error : String)
  deriving Repr, DecidableEq

/-- Everything `_generate_single` produces for one prompt: the returned
triple `(text, tokens, log_probs)` plus the log record it appends. -/
structure GenOutcome where
  text : String
  tokens : List Nat
  logProbs : List Q
  attempts : List AttemptRecord
  finalResult : FinalResult
  deriving Repr, DecidableEq

/-- The behaviour of the three provider APIs for one call: for a provider
name, either the generated text (`.ok`) or the exception text (`.error`).
The repository never reaches the network in this model; this parameter
stands for `client.chat.completions.create` succeeding or raising. -/
def ProviderBehavior : Type := String → Except String String

/-- Attempt record written on the success path of `_generate_single`. -/
def mkSuccAttempt (api text : String) : AttemptRecord :=
  { apiName := api, success := true, error := none, response := some text }

/-- Attempt record written on the exception path of `_generate_single`. -/
def mkFailAttempt (api err : String) : AttemptRecord :=
  { apiName := api, success := false, error := some err, response := none }

/-- The literal fallback text returned when every provider fails. -/
def allFailedText : String := "抱歉，当前无法生成回答。"

/-- The literal `final_result.error` written when every provider fails. -/
def allFailedError : String := "所有API都失败了"

/-- The provider loop of `_generate_single` (src/fallback_llm.py lines
119-224).  On success it returns `(text, tokens, log_probs)` where
`tokens = list(range(len(text.split())))` and `log_probs = [0.5] * len(tokens)`;
on failure it appends a failed attempt and, when the failing provider is the
last element of `fallback_order`, returns the literal fallback triple.
The `[]` case is unreachable for the non-empty literal order: the loop body
always returns inside the last iteration. -/
def generateSingleGo (b : ProviderBehavior) :
    List String → List AttemptRecord → GenOutcome
  | [], acc =>
      { text := allFailedText, tokens := [0], logProbs := [0],
        attempts := acc, finalResult := .failWith allFailedError }
  | api :: rest, acc =>
      match b api with
      | .ok t =>
          { text := t, tokens := List.range (pyWordCount t),
            logProbs := List.replicate (pyWordCount t) (1/2 : Q),
            attempts := acc ++ [mkSuccAttempt api t],
            finalResult := .succOf api }
      | .error e =>
          if api = fallback_order.getLastD "" then
            { text := allFailedText, tokens := [0], logProbs := [0],
              attempts := acc ++ [mkFailAttempt api e],
              finalResult := .failWith allFailedError }
          else
            generateSingleGo b rest (acc ++ [mkFailAttempt api e])

/-- `FallbackLLMClient._generate_single` for one prompt, as a function of
the provider behaviour. It is a total function: the source catches every
provider exception and never raises to its caller. -/
def generate_single (b : ProviderBehavior) : GenOutcome :=
  generateSingleGo b fallback_order []

/-- Claim C1: `_generate_single` tries providers in the literal order
deepseek, doubao, qwen; returns the first successful provider's text at once
(recording one failed attempt per provider that failed before it); and when
all three fail it returns the literal triple
`("抱歉，当前无法生成回答。", [0], [0.0])` after a final failed log record,
never raising (it is a total function of the provider behaviour). -/
theorem generate_single_fallback_order (b : ProviderBehavior) :
    (∀ t, b "deepseek" = .ok t →
      generate_single b =
        { text := t, tokens := List.range (pyWordCount t),
          logProbs := List.replicate (pyWordCount t) (1/2 : Q),
          attempts := [mkSuccAttempt "deepseek" t],
          finalResult := .succOf "deepseek" })
  ∧ (∀ e1 t, b "deepseek" = .error e1 → b "doubao" = .ok t →
      generate_single b =
        { text := t, tokens := List.range (pyWordCount t),
          logProbs := List.replicate (pyWordCount t) (1/2 : Q),
          attempts := [mkFailAttempt "deepseek" e1, mkSuccAttempt "doubao" t],
          finalResult := .succOf "doubao" })
  ∧ (∀ e1 e2 t, b "deepseek" = .error e1 → b "doubao" = .error e2 →
      b "qwen" = .ok t →
      generate_single b =
        { text := t, tokens := List.range (pyWordCount t),
          logProbs := List.replicate (pyWordCount t) (1/2 : Q),
          attempts := [mkFailAttempt "deepseek" e1, mkFailAttempt "doubao" e2,
                       mkSuccAttempt "qwen" t],
          finalResult := .succOf "qwen" })
  ∧ (∀ e1 e2 e3, b "deepseek" = .error e1 → b "doubao" = .error e2 →
      b "qwen" = .error e3 →
      generate_single b =
        { text := allFailedText, tokens := [0], logProbs := [0],
          attempts := [mkFailAttempt "deepseek" e1, mkFailAttempt "doubao" e2,
                       mkFailAttempt "qwen" e3],
          finalResult := .failWith allFailedError }) := by
  refine ⟨?_, ?_, ?_, ?_⟩
  · intro t h
    simp [generate_single, fallback_order, generateSingleGo, h]
  · intro e1 t h1 h2
    simp [generate_single, fallback_order, generateSingleGo, h1, h2]
  · intro e1 e2 t h1 h2 h3
    simp [generate_single, fallback_order, generateSingleGo, h1, h2, h3]
  · intro e1 e2 e3 h1 h2 h3
    simp [generate_single, fallback_order, generateSingleGo, h1, h2, h3]

/-- A concrete provider behaviour where only qwen succeeds. -/
def qwenOnlyBehavior : ProviderBehavior := fun api =>
  if api = "qwen" then .ok "你好 世界" else .error "connection refused"

/-- Witness for C1: at the concrete behaviour where only qwen succeeds,
the qwen case of the theorem evaluates as stated. -/
theorem generate_single_fallback_order_witness :
    generate_single qwenOnlyBehavior =
      { text := "你好 世界", tokens := List.range (pyWordCount "你好 世界"),
        logProbs := List.replicate (pyWordCount "你好 世界") (1/2 : Q),
        attempts := [mkFailAttempt "deepseek" "connection refused",
                     mkFailAttempt "doubao" "connection refused",
                     mkSuccAttempt "qwen" "你好 世界"],
        finalResult := .succOf "qwen" } :=
  (generate_single_fallback_order qwenOnlyBehavior).2.2.1
    "connection refused" "connection refused" "你好 世界" rfl rfl rfl

/-! ### `FallbackLLMClient.get_call_statistics` (src/fallback_llm.py lines 234-276)

The JSONL log file is modelled as the list of `final_result` objects of the
lines written so far; `_generate_single` appends exactly one line per call
(line 197 on success, line 221 on exhaustion).  The file exists on disk if
and only if at least one line has been appended.  The timing and token
fields of the statistics are not modelled (wall-clock data). -/

/-- The statistics dictionary returned by `get_call_statistics`.  The
`successful_calls` / `failed_calls` entries are `Option`s because the
early-return branch for a missing log file produces a dictionary that does
not contain those keys at all. -/
structure CallStats where
  totalCalls : Nat
  successfulCalls : Option Nat
  failedCalls : Option Nat
  apiUsage : List (String × Nat)
  deriving Repr, DecidableEq

/-- `stats["api_usage"][used_api] = stats["api_usage"].get(used_api, 0) + 1`:
bump a key of the histogram, inserting it with count 1 if absent. -/
def bumpUsage : List (String × Nat) → String → List (String × Nat)
  | [], k => [(k, 1)]
  | (a, n) :: rest, k =>
      if a = k then (a, n + 1) :: rest else (a, n) :: bumpUsage rest k

/-- Accumulator of the line-reading loop of `get_call_statistics`. -/
structure StatsAcc where
  total : Nat
  succCount : Nat
  failCount : Nat
  usage : List (String × Nat)
  deriving Repr, DecidableEq

/-- One iteration of the line-reading loop: count the line, then branch on
`final_result.success`. -/
def statsStep (acc : StatsAcc) (r : FinalResult) : StatsAcc :=
  match r with
  | .succOf api =>
      { acc with total := acc.total + 1, succCount := acc.succCount + 1,
                 usage := bumpUsage acc.usage api }
  | .failWith _ =>
      { acc with total := acc.total + 1, failCount := acc.failCount + 1 }

/-- `FallbackLLMClient.get_call_statistics`: if the log file does not exist
(no call was ever logged) it returns the literal short dictionary
`{"total_calls": 0, "api_usage": {}}`; otherwise it replays every line. -/
def get_call_statistics (log : List FinalResult) : CallStats :=
  if log.isEmpty then
    { totalCalls := 0, successfulCalls := none, failedCalls := none,
      apiUsage := [] }
  else
    { totalCalls := (log.foldl statsStep ⟨0, 0, 0, []⟩).total,
      successfulCalls := some (log.foldl statsStep ⟨0, 0, 0, []⟩).succCount,
      failedCalls := some (log.foldl statsStep ⟨0, 0, 0, []⟩).failCount,
      apiUsage := (log.foldl statsStep ⟨0, 0, 0, []⟩).usage }

/-- The log lines produced by a sequence of `_generate_single` calls with
the given per-call provider behaviours. -/
def runLog (bs : List ProviderBehavior) : List FinalResult :=
  bs.map (fun b => (generate_single b).finalResult)

/-- Whether a logged call succeeded. -/
def isSuccLine : FinalResult → Bool
  | .succOf _ => true
  | .failWith _ => false

/-- Sum of the values of the `api_usage` histogram. -/
def sumUsage (u : List (String × Nat)) : Nat :=
  u.foldl (fun n kv => n + kv.2) 0

theorem sumUsage_foldl (u : List (String × Nat)) (n : Nat) :
    u.foldl (fun m kv => m + kv.2) n = n + sumUsage u := by
  induction u generalizing n with
  | nil => simp [sumUsage]
  | cons hd tl ih =>
      show tl.foldl (fun m kv => m + kv.2) (n + hd.2)
          = n + tl.foldl (fun m kv => m + kv.2) (0 + hd.2)
      rw [ih, ih]
      omega

theorem sumUsage_cons (a : String) (n : Nat) (rest : List (String × Nat)) :
    sumUsage ((a, n) :: rest) = n + sumUsage rest := by
  simp only [sumUsage, List.foldl_cons, Nat.zero_add]
  exact sumUsage_foldl rest n

theorem sumUsage_bump (u : List (String × Nat)) (k : String) :
    sumUsage (bumpUsage u k) = sumUsage u + 1 := by
  induction u with
  | nil => rfl
  | cons hd tl ih =>
      rcases hd with ⟨a, n⟩
      by_cases h : a = k
      · rw [bumpUsage, if_pos h, sumUsage_cons, sumUsage_cons]
        omega
      · rw [bumpUsage, if_neg h, sumUsage_cons, ih, sumUsage_cons]
        omega

/-- Invariant of the line-reading loop of `get_call_statistics`. -/
theorem statsFold_counts (log : List FinalResult) (acc : StatsAcc) :
    (log.foldl statsStep acc).total = acc.total + log.length
  ∧ (log.foldl statsStep acc).succCount = acc.succCount + log.countP isSuccLine
  ∧ (log.foldl statsStep acc).failCount
      = acc.failCount + (log.length - log.countP isSuccLine)
  ∧ sumUsage (log.foldl statsStep acc).usage
      = sumUsage acc.usage + log.countP isSuccLine := by
  induction log generalizing acc with
  | nil => simp
  | cons hd tl ih =>
      have hcount : tl.countP isSuccLine ≤ tl.length := List.countP_le_length _
      obtain ⟨h1, h2, h3, h4⟩ := ih (statsStep acc hd)
      rw [List.foldl_cons]
      cases hd with
      | succOf api =>
          simp only [statsStep] at h1 h2 h3 h4 ⊢
          refine ⟨?_, ?_, ?_, ?_⟩ <;>
            simp only [h1, h2, h3, h4, List.countP_cons, List.length_cons,
                       isSuccLine, sumUsage_bump, if_true] <;>
            omega
      | failWith e =>
          simp only [statsStep] at h1 h2 h3 h4 ⊢
          refine ⟨?_, ?_, ?_, ?_⟩ <;>
            simp only [h1, h2, h3, h4, List.countP_cons, List.length_cons,
                       isSuccLine, Bool.false_eq_true, if_false] <;>
            omega

/-- A call succeeds exactly when some provider in the fallback order
succeeds for it. -/
def providerSucceeds (b : ProviderBehavior) : Bool :=
  fallback_order.any (fun p =>
    match b p with
    | .ok _ => true
    | .error _ => false)

theorem gen_single_succ_line (b : ProviderBehavior) :
    isSuccLine (generate_single b).finalResult = providerSucceeds b := by
  cases h1 : b "deepseek" with
  | ok t =>
      simp [generate_single, fallback_order, generateSingleGo,
            providerSucceeds, isSuccLine, h1]
  | error e1 =>
      cases h2 : b "doubao" with
      | ok t =>
          simp [generate_single, fallback_order, generateSingleGo,
                providerSucceeds, isSuccLine, h1, h2]
      | error e2 =>
          cases h3 : b "qwen" with
          | ok t =>
              simp [generate_single, fallback_order, generateSingleGo,
                    providerSucceeds, isSuccLine, h1, h2, h3]
          | error e3 =>
              simp [generate_single, fallback_order, generateSingleGo,
                    providerSucceeds, isSuccLine, h1, h2, h3]

theorem runLog_countP (bs : List ProviderBehavior) :
    (runLog bs).countP isSuccLine = bs.countP providerSucceeds := by
  rw [runLog, List.countP_map]
  exact List.countP_congr (fun b _ => by
    simp [Function.comp, gen_single_succ_line b])

/-- Claim C6 (counterexample to the claim as stated): for the empty call
sequence (N = 0, K = 0) the log file was never created, so
`get_call_statistics` returns the literal dictionary
`{"total_calls": 0, "api_usage": {}}` which contains no `successful_calls`
or `failed_calls` entry at all — it does not report `successful_calls = 0`
as the claim requires. -/
theorem get_call_statistics_empty_cx :
    (get_call_statistics (runLog [])).totalCalls = 0
  ∧ (get_call_statistics (runLog [])).successfulCalls = none
  ∧ (get_call_statistics (runLog [])).failedCalls = none
  ∧ (get_call_statistics (runLog [])).successfulCalls ≠ some 0 := by
  decide

/-- Claim C6 (amended): for every non-empty sequence of N generation calls
of which K succeed (a call succeeds exactly when one provider succeeds for
it, and the success is attributed to that provider), `get_call_statistics()`
reports `total_calls = N`, `successful_calls = K`, `failed_calls = N - K`,
and an `api_usage` histogram whose values sum to K.  (For N = 0 it instead
returns the short dictionary of `get_call_statistics_empty_cx`.) -/
theorem get_call_statistics_counts (bs : List ProviderBehavior)
    (h : bs ≠ []) :
    (get_call_statistics (runLog bs)).totalCalls = bs.length
  ∧ (get_call_statistics (runLog bs)).successfulCalls
      = some (bs.countP providerSucceeds)
  ∧ (get_call_statistics (runLog bs)).failedCalls
      = some (bs.length - bs.countP providerSucceeds)
  ∧ sumUsage (get_call_statistics (runLog bs)).apiUsage
      = bs.countP providerSucceeds := by
  have hlen : (runLog bs).length = bs.length := by simp [runLog]
  have hne : (runLog bs).isEmpty = false := by
    cases bs with
    | nil => exact absurd rfl h
    | cons a l => simp [runLog]
  obtain ⟨h1, h2, h3, h4⟩ := statsFold_counts (runLog bs) ⟨0, 0, 0, []⟩
  simp only [get_call_statistics, hne, Bool.false_eq_true, if_false]
  refine ⟨?_, ?_, ?_, ?_⟩
  · rw [h1, hlen]; simp
  · rw [h2, runLog_countP]; simp
  · rw [h3, hlen, runLog_countP]; simp
  · rw [h4, runLog_countP]; simp [sumUsage]

/-- A provider behaviour where every provider fails. -/
def noProviderBehavior : ProviderBehavior := fun _ => .error "timeout"

/-- Two concrete calls: one where only qwen succeeds, one where every
provider fails. -/
def statsDemoBehaviors : List ProviderBehavior :=
  [qwenOnlyBehavior, noProviderBehavior]

/-- Witness for C6: two concrete calls of which exactly one succeeds. -/
theorem get_call_statistics_counts_witness :
    (get_call_statistics (runLog statsDemoBehaviors)).totalCalls = 2
  ∧ (get_call_statistics (runLog statsDemoBehaviors)).successfulCalls = some 1
  ∧ (get_call_statistics (runLog statsDemoBehaviors)).failedCalls = some 1
  ∧ sumUsage (get_call_statistics (runLog statsDemoBehaviors)).apiUsage
      = 1 := by
  obtain ⟨h1, h2, h3, h4⟩ :=
    get_call_statistics_counts statsDemoBehaviors (by simp [statsDemoBehaviors])
  have hc : statsDemoBehaviors.countP providerSucceeds = 1 := by decide
  have hl : statsDemoBehaviors.length = 2 := rfl
  rw [hc] at h2 h3 h4
  rw [hl] at h1 h3
  norm_num at h3
  exact ⟨h1, h2, h3, h4⟩

/-- Python `str.lower()`, per character (the strings lowered in this
repository are ASCII operation/command/model names).  Defined over the
character list so that it evaluates inside the kernel. -/
def pyLower (s : String) : String := ⟨s.data.map Char.toLower⟩

/-! ### Embedding of `math_calculator` (src/tools/tool_functions.py lines 604-741)

The function returns a plain dictionary: either `{..., result: value}` or,
when any internal exception is caught, `{error: str(e), ...}`.  This is
modelled as `Except String MCVal` (`.error` is the error dictionary with its
`error` text, `.ok` the result value).  Results of `math.sqrt` / `math.pow`
and of calls to the bound math functions inside an expression are machine
floats of transcendental values; they are kept as opaque symbolic values
(`symVal` / `EVal.sym`) rather than approximated. -/

/-- The literal allow-list `set("0123456789.+-*/()[]{} ")` (braces written
as hex escapes). -/
def safeChars : List Char := "0123456789.+-*/()[]\x7b\x7d ".toList

/-- The literal `safe_functions` set. -/
def safeFunctions : List String :=
  ["abs", "round", "min", "max", "sum", "pow", "sqrt", "sin", "cos", "tan",
   "log", "exp"]

/-- A regex word character, for the `\b` boundaries of `re.search`.
Python's `\b` on str patterns is Unicode-aware; this is its restriction to
ASCII, where the two coincide (`[a-zA-Z0-9_]`).  The theorems about the
safety check therefore carry an all-ASCII hypothesis on the expression. -/
def isWordChar (c : Char) : Bool := c.isAlphanum || c = '_'

/-- Occurrence of `f` at index `i` of `e` with `\b` word boundaries on both
sides, as tested by the `re.search` of the safety check. -/
def wordBoundaryAt (f e : List Char) (i : Nat) : Bool :=
  f.isPrefixOf (e.drop i)
  && (i == 0 || !isWordChar (e.getD (i - 1) ' '))
  && !isWordChar (e.getD (i + f.length) ' ')

/-- Plain substring occurrence, for the `func in expression` pre-check. -/
def substringOccurs (f e : List Char) : Bool :=
  (List.range (e.length + 1)).any (fun i => f.isPrefixOf (e.drop i))

/-- Word-boundary occurrence anywhere in `e`. -/
def wordOccurs (f e : List Char) : Bool :=
  (List.range (e.length + 1)).any (fun i => wordBoundaryAt f e i)

/-- The `found` flag computed inside the per-character loop of the safety
check: some safe function name occurs in the expression (plain substring
pre-check, then the word-boundary regex).  Note that it does not depend on
the offending character. -/
def mcFound (e : List Char) : Bool :=
  safeFunctions.any (fun f =>
    substringOccurs f.toList e && wordOccurs f.toList e)

/-- The per-character safety loop: the first character outside the
allow-list raises `ValueError("Unsafe character in expression: ...")`
unless some safe function name occurs anywhere in the expression. -/
def exprUnsafeChar (e : List Char) : Option Char :=
  match e.find? (fun c => !safeChars.contains c) with
  | none => none
  | some c => if mcFound e then none else some c

/-- The check the claim describes (second definition, following the claim's
words, for comparison with `exprUnsafeChar`): a character is flagged when it
is outside the allow-list and is not part of an occurrence of one of the
named functions. -/
def coveredByFunc (e : List Char) (i : Nat) : Bool :=
  safeFunctions.any (fun f =>
    (List.range (e.length + 1)).any (fun j =>
      wordBoundaryAt f.toList e j && decide (j ≤ i)
        && decide (i < j + f.toList.length)))

/-- The claim's unsafe-expression predicate (from the claim's words). -/
def claimedUnsafeExpr (e : List Char) : Bool :=
  (List.range e.length).any (fun i =>
    !safeChars.contains (e.getD i ' ') && !coveredByFunc e i)

/-- A value produced by Python `eval` on the expression path: a number, or
the opaque float returned by one of the bound math functions. -/
inductive EVal where
  | num (q : Q)
  | sym (fn : String) (args : List Q)
  deriving Repr, DecidableEq

/-- Tokens of the arithmetic expression language `eval` is given. -/
inductive Tok where
  | num (q : Q)
  | ident (s : String)
  | plus
  | minus
  | star
  | slash
  | lparen
  | rparen
  | comma
  deriving Repr, DecidableEq

/-- Numeric value of a run of digits. -/
def digitsToNat (ds : List Char) : Nat :=
  ds.foldl (fun n c => 10 * n + (c.toNat - 48)) 0

/-- Tokenizer for the arithmetic fragment accepted by Python `eval` that
the claims exercise.  A `#` begins a Python comment (also inside `eval`)
running to the end of the line.  Any other character outside the fragment
is a `SyntaxError` (modelled as the error text "invalid syntax"). -/
def tokenize : Nat → List Char → Except String (List Tok)
  | 0, _ => .error "invalid syntax"
  | _, [] => .ok []
  | fuel + 1, c :: cs =>
      if c = '#' then tokenize fuel (cs.dropWhile (fun d => d ≠ '\n'))
      else if c.isWhitespace then tokenize fuel cs
      else if c.isDigit then
        let ip := (c :: cs).takeWhile Char.isDigit
        let rest := (c :: cs).dropWhile Char.isDigit
        match rest with
        | '.' :: rest2 =>
            let fp := rest2.takeWhile Char.isDigit
            let rest3 := rest2.dropWhile Char.isDigit
            (tokenize fuel rest3).map (fun ts =>
              .num ((digitsToNat ip : Q)
                + (digitsToNat fp : Q) / ((10 : Q) ^ fp.length)) :: ts)
        | _ =>
            (tokenize fuel rest).map (fun ts =>
              .num (digitsToNat ip : Q) :: ts)
      else if c.isAlpha || c = '_' then
        let nm := (c :: cs).takeWhile isWordChar
        let rest := (c :: cs).dropWhile isWordChar
        (tokenize fuel rest).map (fun ts => .ident (String.mk nm) :: ts)
      else if c = '+' then (tokenize fuel cs).map (fun ts => .plus :: ts)
      else if c = '-' then (tokenize fuel cs).map (fun ts => .minus :: ts)
      else if c = '*' then (tokenize fuel cs).map (fun ts => .star :: ts)
      else if c = '/' then (tokenize fuel cs).map (fun ts => .slash :: ts)
      else if c = '(' then (tokenize fuel cs).map (fun ts => .lparen :: ts)
      else if c = ')' then (tokenize fuel cs).map (fun ts => .rparen :: ts)
      else if c = ',' then (tokenize fuel cs).map (fun ts => .comma :: ts)
      else .error "invalid syntax"

/-- The subset of `safe_functions` actually bound by the `safe_globals`
construction: the names that are attributes of Python's `math` module, plus
the special-cased builtin `sum`.  `abs`, `round`, `min`, `max` are in the
allow-list but are NOT attributes of `math`, so they end up unbound. -/
def mathModuleAttrs : List String :=
  ["pow", "sqrt", "sin", "cos", "tan", "log", "exp"]

/-- Names bound in the environment `eval` runs in. -/
def mcBoundNames : List String :=
  safeFunctions.filter (fun f => mathModuleAttrs.contains f || f = "sum")

def evAdd : EVal → EVal → Except String EVal
  | .num a, .num b => .ok (.num (a + b))
  | _, _ => .error "float arithmetic on opaque transcendental values is not modelled"

def evSub : EVal → EVal → Except String EVal
  | .num a, .num b => .ok (.num (a - b))
  | _, _ => .error "float arithmetic on opaque transcendental values is not modelled"

def evMul : EVal → EVal → Except String EVal
  | .num a, .num b => .ok (.num (a * b))
  | _, _ => .error "float arithmetic on opaque transcendental values is not modelled"

def evDiv : EVal → EVal → Except String EVal
  | .num a, .num b =>
      if b = 0 then .error "division by zero" else .ok (.num (a / b))
  | _, _ => .error "float arithmetic on opaque transcendental values is not modelled"

def evNeg : EVal → Except String EVal
  | .num a => .ok (.num (-a))
  | _ => .error "float arithmetic on opaque transcendental values is not modelled"

/-- Function-call arguments must be plain numbers in this model. -/
def evArgsToRats : List EVal → Except String (List Q)
  | [] => .ok []
  | .num q :: rest => (evArgsToRats rest).map (fun qs => q :: qs)
  | .sym _ _ :: _ =>
      .error "float arithmetic on opaque transcendental values is not modelled"

mutual

/-- `sum := term (("+" | "-") term)*` with Python precedence. -/
def parseSum : Nat → List Tok → Except String (EVal × List Tok)
  | 0, _ => .error "invalid syntax"
  | fuel + 1, ts => do
      let (v, rest) ← parseTerm fuel ts
      parseSumTail fuel v rest

def parseSumTail : Nat → EVal → List Tok → Except String (EVal × List Tok)
  | 0, _, _ => .error "invalid syntax"
  | fuel + 1, v, ts =>
      match ts with
      | .plus :: rest => do
          let (w, rest2) ← parseTerm fuel rest
          let s ← evAdd v w
          parseSumTail fuel s rest2
      | .minus :: rest => do
          let (w, rest2) ← parseTerm fuel rest
          let s ← evSub v w
          parseSumTail fuel s rest2
      | _ => .ok (v, ts)

def parseTerm : Nat → List Tok → Except String (EVal × List Tok)
  | 0, _ => .error "invalid syntax"
  | fuel + 1, ts => do
      let (v, rest) ← parseFactor fuel ts
      parseTermTail fuel v rest

def parseTermTail : Nat → EVal → List Tok → Except String (EVal × List Tok)
  | 0, _, _ => .error "invalid syntax"
  | fuel + 1, v, ts =>
      match ts with
      | .star :: rest => do
          let (w, rest2) ← parseFactor fuel rest
          let s ← evMul v w
          parseTermTail fuel s rest2
      | .slash :: rest => do
          let (w, rest2) ← parseFactor fuel rest
          let s ← evDiv v w
          parseTermTail fuel s rest2
      | _ => .ok (v, ts)

def parseFactor : Nat → List Tok → Except String (EVal × List Tok)
  | 0, _ => .error "invalid syntax"
  | fuel + 1, ts =>
      match ts with
      | .minus :: rest => do
          let (v, rest2) ← parseFactor fuel rest
          let w ← evNeg v
          .ok (w, rest2)
      | .plus :: rest => parseFactor fuel rest
      | .num q :: rest => .ok (.num q, rest)
      | .ident nm :: rest =>
          if mcBoundNames.contains nm then
            match rest with
            | .lparen :: rest2 => do
                let (args, rest3) ← parseArgs fuel rest2
                let qs ← evArgsToRats args
                .ok (.sym nm qs, rest3)
            | _ =>
                .error "a bare function object as a value is not modelled"
          else
            .error ("name " ++ nm ++ " is not defined")
      | .lparen :: rest => do
          let (v, rest2) ← parseSum fuel rest
          match rest2 with
          | .rparen :: rest3 => .ok (v, rest3)
          | _ => .error "invalid syntax"
      | _ => .error "invalid syntax"

def parseArgs : Nat → List Tok → Except String (List EVal × List Tok)
  | 0, _ => .error "invalid syntax"
  | fuel + 1, ts => do
      let (v, rest) ← parseSum fuel ts
      match rest with
      | .comma :: rest2 => do
          let (vs, rest3) ← parseArgs fuel rest2
          .ok (v :: vs, rest3)
      | .rparen :: rest2 => .ok ([v], rest2)
      | _ => .error "invalid syntax"

end

/-- Python `eval` of an expression over the bound math names, restricted to
the arithmetic fragment the claims exercise. -/
def evalPyExpr (s : String) : Except String EVal := do
  let ts ← tokenize (s.toList.length + 1) s.toList
  let (v, rest) ← parseSum (4 * ts.length + 4) ts
  match rest with
  | [] => .ok v
  | _ => .error "invalid syntax"

/-- A value held in the `result` field of the dictionary `math_calculator`
returns: a number, a list of numbers (ties of `mode`), or the opaque float
of a `math` library call. -/
inductive MCVal where
  | num (q : Q)
  | nums (qs : List Q)
  | symVal (fn : String) (args : List Q)
  deriving Repr, DecidableEq

def evToMC : EVal → MCVal
  | .num q => .num q
  | .sym fn args => .symVal fn args

def ratSum (ns : List Q) : Q := ns.foldl (· + ·) 0

def ratMin (ns : List Q) : Q :=
  match ns with
  | [] => 0
  | x :: xs => xs.foldl min x

def ratMax (ns : List Q) : Q :=
  match ns with
  | [] => 0
  | x :: xs => xs.foldl max x

def natMaxL (ns : List Nat) : Nat :=
  match ns with
  | [] => 0
  | x :: xs => xs.foldl max x

/-- Stable insertion of Python `sorted` (ascending). -/
def insertSorted (x : Q) : List Q → List Q
  | [] => [x]
  | y :: ys => if x ≤ y then x :: y :: ys else y :: insertSorted x ys

def sortRats (l : List Q) : List Q := l.foldr insertSorted []

/-- The `operation`-with-`numbers` branch of `math_calculator`
(src/tools/tool_functions.py lines 658-731).  `op` is already lowercased;
`ns` is non-empty (guaranteed by the caller's truthiness test).  The
`ratMin`/`ratMax`/`natMaxL` base cases for `[]` are unreachable there. -/
def mcOperation (op : String) (ns : List Q) : Except String MCVal :=
  if op = "add" then .ok (.num (ratSum ns))
  else if op = "subtract" then
    if ns.length < 2 then .error "At least 2 numbers are required for subtraction"
    else .ok (.num (ns.headD 0 - ratSum (ns.drop 1)))
  else if op = "multiply" then .ok (.num (ns.foldl (· * ·) 1))
  else if op = "divide" then
    if ns.length ≠ 2 then .error "Exactly 2 numbers are required for division"
    else if ns.getD 1 0 = 0 then .error "Division by zero is not allowed"
    else .ok (.num (ns.getD 0 0 / ns.getD 1 0))
  else if op = "power" then
    if ns.length ≠ 2 then .error "Exactly 2 numbers are required for power operation"
    else .ok (.symVal "pow" [ns.getD 0 0, ns.getD 1 0])
  else if op = "sqrt" then
    if ns.length ≠ 1 then .error "Exactly 1 number is required for square root"
    else if ns.getD 0 0 < 0 then
      .error "Cannot calculate square root of a negative number"
    else .ok (.symVal "sqrt" [ns.getD 0 0])
  else if op = "min" then .ok (.num (ratMin ns))
  else if op = "max" then .ok (.num (ratMax ns))
  else if op = "sum" then .ok (.num (ratSum ns))
  else if op = "average" || op = "mean" then
    .ok (.num (ratSum ns / (ns.length : Q)))
  else if op = "median" then
    let s := sortRats ns
    let n := s.length
    if n % 2 = 0 then
      .ok (.num ((s.getD (n / 2 - 1) 0 + s.getD (n / 2) 0) / 2))
    else .ok (.num (s.getD (n / 2) 0))
  else if op = "mode" then
    let uniq := ns.eraseDups
    let maxCount := natMaxL (uniq.map (fun x => ns.count x))
    let modes := uniq.filter (fun x => ns.count x = maxCount)
    .ok (if modes.length = 1 then .num (modes.headD 0) else .nums modes)
  else .error ("Unsupported operation: " ++ op)

/-- The inputs of one `math_calculator` call.  `numbers` entries are
modelled as exact rationals (see the float convention of the file header). -/
structure MCInput where
  expression : Option String
  operation : Option String
  numbers : Option (List Q)

/-- Python truthiness of the optional `expression` / `operation` strings. -/
def pyTruthyStr : Option String → Bool
  | some s => s ≠ ""
  | none => false

/-- Python truthiness of the optional `numbers` list. -/
def pyTruthyNums : Option (List Q) → Bool
  | some ns => ns ≠ []
  | none => false

/-- `math_calculator` itself.  `.error e` is the caught-exception
dictionary `{error: e, ...}`; `.ok v` is `{..., result: v}`.  The function
never raises: every internal exception is caught by its `except` clause. -/
def math_calculator (inp : MCInput) : Except String MCVal :=
  if pyTruthyStr inp.expression then
    match exprUnsafeChar (inp.expression.getD "").toList with
    | some c => .error ("Unsafe character in expression: " ++ c.toString)
    | none =>
        match evalPyExpr (inp.expression.getD "") with
        | .ok v => .ok (evToMC v)
        | .error msg => .error msg
  else if pyTruthyStr inp.operation && pyTruthyNums inp.numbers then
    mcOperation (pyLower (inp.operation.getD "")) (inp.numbers.getD [])
  else
    .error "Either expression or operation with numbers must be provided"

/-- Claim C8: the five concrete `math_calculator` equations.  The failing
`divide` and `sqrt` calls return the caught `ValueError` dictionary — the
InvalidInput kind of the spec's error taxonomy. -/
theorem math_calculator_equations :
    math_calculator ⟨none, some "median", some [1, 2, 3, 4]⟩
      = .ok (.num (5 / 2))
  ∧ math_calculator ⟨none, some "median", some [1, 2, 3]⟩ = .ok (.num 2)
  ∧ math_calculator ⟨none, some "divide", some [10, 0]⟩
      = .error "Division by zero is not allowed"
  ∧ math_calculator ⟨none, some "sqrt", some [-1]⟩
      = .error "Cannot calculate square root of a negative number"
  ∧ math_calculator ⟨some "2 + 3 * 4", none, none⟩ = .ok (.num 14) := by
  decide

/-- Claim C3 (counterexample to the claim as stated): in `"sin(1)#"` the
character `#` is outside the allow-list and is not part of any named
function, so the claim requires an unsafe-character failure with the
expression never evaluated; but the code's check passes every character as
soon as any safe function name occurs anywhere in the expression, so the
string reaches `eval` — where `#` merely begins a comment — and the call
SUCCEEDS, returning the `sin(1)` value (the opaque float
`.symVal "sin" [1]` under the float convention of the file header). -/
theorem math_calculator_unsafe_char_cx :
    claimedUnsafeExpr "sin(1)#".toList = true
  ∧ exprUnsafeChar "sin(1)#".toList = none
  ∧ math_calculator ⟨some "sin(1)#", none, none⟩ = .ok (.symVal "sin" [1]) := by
  refine ⟨by decide, by decide, by decide⟩

/-- Claim C3 (amended): for an all-ASCII expression (where the model's
word-boundary test coincides with the Unicode-aware `\b` of the source),
the expression path flags an unsafe character (and returns the
`ValueError` dictionary without evaluating) exactly when the expression
contains a character outside the allow-list AND no safe function name
occurs — as a whole word, anywhere — in the expression; when one does
occur, every character passes.  The flagged character is the first
offending one.  Evaluation binds only names from the fixed safe set
(in fact only those that are `math`-module attributes, plus `sum`). -/
theorem math_calculator_unsafe_char_amended (s : String)
    (hascii : ∀ c ∈ s.toList, c.toNat < 128) :
    ((exprUnsafeChar s.toList).isSome
        = (s.toList.any (fun c => !safeChars.contains c) && !mcFound s.toList))
  ∧ (∀ c, exprUnsafeChar s.toList = some c →
        math_calculator ⟨some s, none, none⟩
          = .error ("Unsafe character in expression: " ++ c.toString))
  ∧ (∀ f ∈ mcBoundNames, f ∈ safeFunctions) := by
  refine ⟨?_, ?_, ?_⟩
  · cases hf : s.toList.find? (fun c => !safeChars.contains c) with
    | none =>
        have hany : s.toList.any (fun c => !safeChars.contains c) = false := by
          rw [List.any_eq_false]
          intro x hx
          simpa using List.find?_eq_none.mp hf x hx
        rw [exprUnsafeChar, hf, hany]
        rfl
    | some c =>
        have hp := List.find?_some hf
        have hmem : c ∈ s.toList := List.mem_of_find?_eq_some hf
        have hany : s.toList.any (fun c => !safeChars.contains c) = true :=
          List.any_eq_true.mpr ⟨c, hmem, hp⟩
        rw [exprUnsafeChar, hf, hany]
        cases hb : mcFound s.toList with
        | true => rfl
        | false => rfl
  · intro c hc
    have hs : s ≠ "" := by
      intro h
      subst h
      have hnone : exprUnsafeChar "".toList = none := by decide
      rw [hnone] at hc
      exact Option.noConfusion hc
    have hc2 : exprUnsafeChar s.data = some c := hc
    simp [math_calculator, pyTruthyStr, hs, hc2]
  · intro f hf
    exact List.mem_of_mem_filter hf

/-- Witness for C3 (amended): `"2+@"` has the offending character `@` and
no safe function name, so the call fails with the unsafe-character error. -/
theorem math_calculator_unsafe_char_amended_witness :
    exprUnsafeChar "2+@".toList = some '@'
  ∧ math_calculator ⟨some "2+@", none, none⟩
      = .error ("Unsafe character in expression: " ++ '@'.toString) :=
  ⟨by decide,
   (math_calculator_unsafe_char_amended "2+@" (by decide)).2.1 '@'
     (by decide)⟩

/-! ### Embedding of `FunctionTool` (src/tools/tool_functions.py lines
1386-1450) and `ToolResponse` / `BaseTool` (src/tools/base_tool.py)

`FunctionTool._execute` runs the wrapped callable; a returned value — of
any shape — is wrapped by `format_response(success=True, result=result,
...)`, while a raised exception is converted by `handle_error` into
`ToolResponse(success=False, error=str(e))`.  `BaseTool.execute` passes a
`ToolResponse` through unchanged (filling `tool_name`). -/

/-- The `ToolResponse` envelope, generic over the result payload.  The
`metadata` field is not modelled (it never interacts with the claims). -/
structure ToolResponse (ρ : Type) where
  success : Bool
  result : Option ρ
  error : Option String
  toolName : Option String
  deriving Repr, DecidableEq

/-- `FunctionTool._execute` as a function of the wrapped callable's
outcome (`.ok` = returned value, `.error` = raised with that text). -/
def functionToolExecute {ρ : Type} (name : String) (call : Except String ρ) :
    ToolResponse ρ :=
  match call with
  | .ok v =>
      { success := true, result := some v, error := none, toolName := some name }
  | .error e =>
      { success := false, result := none, error := some e, toolName := some name }

/-- The outcome of calling the `math_calculator` Python function itself:
it catches every internal exception and RETURNS the error dictionary, so
as a callable it always returns (never raises). -/
def math_calculator_call (inp : MCInput) :
    Except String (Except String MCVal) :=
  .ok (math_calculator inp)

/-- Claim C2 (counterexample to the claim as stated): a `math_calculator`
division by zero returns a map containing an `error` key, but the
`FunctionTool` wrapping yields `success = true` with `error` absent and the
error dictionary as the `result` — not the `success = false` response the
claim requires. -/
theorem tool_response_invariant_cx :
    (functionToolExecute "math_calculator"
        (math_calculator_call ⟨none, some "divide", some [10, 0]⟩)).success
      = true
  ∧ (functionToolExecute "math_calculator"
        (math_calculator_call ⟨none, some "divide", some [10, 0]⟩)).error
      = none
  ∧ (functionToolExecute "math_calculator"
        (math_calculator_call ⟨none, some "divide", some [10, 0]⟩)).result
      = some (.error "Division by zero is not allowed") := by
  refine ⟨by decide, by decide, by decide⟩

/-- Claim C2 (amended): a `FunctionTool` call yields `success = true` with
`error` absent exactly when the wrapped callable returns — whatever it
returns, including an error map such as `math_calculator`'s
division-by-zero dictionary, which therefore surfaces inside a successful
response — and yields `success = false` with `error` set to the exception
text exactly when the callable raises; `success = true` iff `error` is
absent. -/
theorem function_tool_response_amended {ρ : Type} (name : String)
    (call : Except String ρ) :
    (∀ v, call = .ok v →
        functionToolExecute name call
          = { success := true, result := some v, error := none,
              toolName := some name })
  ∧ (∀ e, call = .error e →
        functionToolExecute name call
          = { success := false, result := none, error := some e,
              toolName := some name })
  ∧ ((functionToolExecute name call).success = true
      ↔ (functionToolExecute name call).error = none) := by
  cases call with
  | ok v =>
      refine ⟨?_, ?_, ?_⟩
      · intro w hw
        cases hw
        rfl
      · intro e he
        exact Except.noConfusion he
      · simp [functionToolExecute]
  | error e =>
      refine ⟨?_, ?_, ?_⟩
      · intro w hw
        exact Except.noConfusion hw
      · intro e2 he
        cases he
        rfl
      · simp [functionToolExecute]

/-- Witness for C2 (amended): the division-by-zero call returns its error
dictionary, and the wrapped response is the successful envelope holding it. -/
theorem function_tool_response_amended_witness :
    functionToolExecute "math_calculator"
        (math_calculator_call ⟨none, some "divide", some [10, 0]⟩)
      = { success := true,
          result := some (.error "Division by zero is not allowed"),
          error := none, toolName := some "math_calculator" } :=
  (function_tool_response_amended "math_calculator"
      (math_calculator_call ⟨none, some "divide", some [10, 0]⟩)).1
    (Except.error "Division by zero is not allowed") (by decide)

/-! ### Embedding of `CommandExecutionTool` (src/tools/system_tools.py
lines 102-210)

`_execute` first calls `_is_command_safe`; an unsafe command is answered
with a failed response before anything runs.  `_run_command` either
returns a result dictionary or raises; `_execute` wraps a returned value in
`format_response(success=True, ...)` and converts a raise into a failed
response via `handle_error`. -/

/-- The literal `dangerous_commands` denylist. -/
def dangerous_commands : List String :=
  ["rm", "del", "erase", "format", "mkfs",
   "shutdown", "reboot", "halt", "poweroff",
   "su", "sudo", "passwd", "useradd", "userdel",
   "mount", "umount", "dd", "chmod", "chown"]

/-- A command argument: an argv list or a shell string. -/
inductive CmdInput where
  | argv (args : List String)
  | str (s : String)

/-- The name checks of `_is_command_safe` on the lowercased first token:
denylist first, then the (already-lowercase) allowlist when non-empty. -/
def cmdNameCheck (n : String) (allowed : List String) : Bool :=
  if dangerous_commands.contains n then false
  else if !allowed.isEmpty && !allowed.contains n then false
  else true

/-- `_is_command_safe`.  `.error` is the `IndexError` raised by
`command[0]` on an empty argv list (caught by `_execute`'s handler). -/
def is_command_safe (c : CmdInput) (allowed : List String) :
    Except String Bool :=
  match c with
  | .argv [] => .error "list index out of range"
  | .argv (a :: _) => .ok (cmdNameCheck (pyLower a) allowed)
  | .str s =>
      match pySplitWs s with
      | [] => .ok false
      | t :: _ => .ok (cmdNameCheck (pyLower t) allowed)

/-- The lowercased first token of a command, as the claims speak of it. -/
def firstCmdToken : CmdInput → Option String
  | .argv args => args.head?.map pyLower
  | .str s => (pySplitWs s).head?.map pyLower

/-- The response of one `CommandExecutionTool._execute` call.  `executed`
records whether `_run_command` was reached.  The Python rejection message
is `"Command is not allowed for security reasons: {command}"`; the
command's text rendering is not modelled. -/
structure CmdResponse where
  success : Bool
  error : Option String
  executed : Bool
  deriving Repr, DecidableEq

/-- The literal pre-execution rejection response. -/
def blockedResponse : CmdResponse :=
  { success := false,
    error := some "Command is not allowed for security reasons",
    executed := false }

/-- `CommandExecutionTool._execute`, as a function of the outcome `run` of
`_run_command` (`.ok flag` = returned a result dict with that `success`
flag, `.error` = raised).  Note that a command that runs and exits non-zero
is still wrapped with `success = True`. -/
def command_execute (c : CmdInput) (allowed : List String)
    (run : Except String Bool) : CmdResponse :=
  match is_command_safe c allowed with
  | .ok false => blockedResponse
  | .ok true =>
      match run with
      | .ok _ => { success := true, error := none, executed := true }
      | .error e => { success := false, error := some e, executed := true }
  | .error e => { success := false, error := some e, executed := false }

/-- Claim C9: a command whose lowercased first token is on the denylist is
rejected before execution even with an empty allowlist (the theorem's
allowlist is universally quantified, so in particular empty); and with a
non-empty allowlist, a command whose first token is not in it is rejected
before execution even when the token is not on the denylist (the theorem
needs no denylist hypothesis at all). -/
theorem command_safety_checks (c : CmdInput) (allowed : List String)
    (run : Except String Bool) :
    (∀ t, firstCmdToken c = some t → dangerous_commands.contains t = true →
        command_execute c allowed run = blockedResponse)
  ∧ (∀ t, firstCmdToken c = some t → allowed ≠ [] →
        allowed.contains t = false →
        command_execute c allowed run = blockedResponse) := by
  have hempty : allowed ≠ [] → allowed.isEmpty = false := by
    intro h
    cases allowed with
    | nil => exact absurd rfl h
    | cons a l => rfl
  constructor
  · intro t ht hdang
    have hdang2 : t ∈ dangerous_commands := by simpa using hdang
    cases c with
    | argv args =>
        cases args with
        | nil => exact Option.noConfusion ht
        | cons a rest =>
            have ht2 : pyLower a = t := by
              simpa [firstCmdToken] using ht
            simp [command_execute, is_command_safe, cmdNameCheck, ht2, hdang2]
    | str s =>
        cases hsplit : pySplitWs s with
        | nil =>
            rw [firstCmdToken, hsplit] at ht
            exact Option.noConfusion ht
        | cons a rest =>
            have ht2 : pyLower a = t := by
              rw [firstCmdToken, hsplit] at ht
              simpa using ht
            simp [command_execute, is_command_safe, cmdNameCheck, hsplit,
                  ht2, hdang2]
  · intro t ht hne hallow
    have hallow2 : t ∉ allowed := by simpa using hallow
    cases c with
    | argv args =>
        cases args with
        | nil => exact Option.noConfusion ht
        | cons a rest =>
            have ht2 : pyLower a = t := by
              simpa [firstCmdToken] using ht
            by_cases hdang : t ∈ dangerous_commands
            · simp [command_execute, is_command_safe, cmdNameCheck, ht2,
                    hdang]
            · simp [command_execute, is_command_safe, cmdNameCheck, ht2,
                    hdang, hne, hallow2]
    | str s =>
        cases hsplit : pySplitWs s with
        | nil =>
            rw [firstCmdToken, hsplit] at ht
            exact Option.noConfusion ht
        | cons a rest =>
            have ht2 : pyLower a = t := by
              rw [firstCmdToken, hsplit] at ht
              simpa using ht
            by_cases hdang : t ∈ dangerous_commands
            · simp [command_execute, is_command_safe, cmdNameCheck, hsplit,
                    ht2, hdang]
            · simp [command_execute, is_command_safe, cmdNameCheck, hsplit,
                    ht2, hdang, hne, hallow2]

/-- Witness for C9: `"rm -rf /tmp/x"` is blocked with an empty allowlist;
`"ls -l"` is blocked by the allowlist `["echo"]` though `ls` is not on the
denylist. -/
theorem command_safety_checks_witness :
    command_execute (.str "rm -rf /tmp/x") [] (.ok true) = blockedResponse
  ∧ command_execute (.str "ls -l") ["echo"] (.ok true) = blockedResponse :=
  ⟨(command_safety_checks (.str "rm -rf /tmp/x") [] (.ok true)).1
      "rm" (by decide) (by decide),
   (command_safety_checks (.str "ls -l") ["echo"] (.ok true)).2
      "ls" (by decide) (by decide) (by decide)⟩

/-! ### Embedding of `BaseAgent.set_state` (src/agents/base_agent.py lines
142-154 and 212-224)

The agent state is a Python dictionary, modelled as an association list in
insertion order with `DecidableEq` values.  `set_state(partial)` copies the
old state, applies `dict.update` (replace in place, append new keys in the
partial map's order), and fires every registered state-change callback once
with `(old_state, self.state)` when the dictionaries compare unequal.
Callbacks are opaque side-effecting functions; firing is modelled as the
list of delivered `(callback, old, new)` events, one per registered
callback in registration order (exceptions inside a callback are caught by
the source and do not affect delivery to the others). -/

/-- `d[k] = v` on a Python dictionary: replace in place or append. -/
def setKey {V : Type} : List (String × V) → String → V → List (String × V)
  | [], k, v => [(k, v)]
  | (a, w) :: rest, k, v =>
      if a = k then (a, v) :: rest else (a, w) :: setKey rest k v

/-- `d.get(k)` (first occurrence). -/
def lookupK {V : Type} : List (String × V) → String → Option V
  | [], _ => none
  | (a, w) :: rest, k => if a = k then some w else lookupK rest k

/-- `state.update(partial)`. -/
def dictUpdate {V : Type} (d m : List (String × V)) : List (String × V) :=
  m.foldl (fun acc kv => setKey acc kv.1 kv.2) d

/-- Python `==` on dictionaries: equal as finite maps. -/
def dictEqB {V : Type} [DecidableEq V] (d1 d2 : List (String × V)) : Bool :=
  d1.all (fun kv => decide (lookupK d2 kv.1 = some kv.2))
  && d2.all (fun kv => decide (lookupK d1 kv.1 = some kv.2))

/-- `BaseAgent.set_state`: the new state, plus the list of state-change
callback deliveries it triggers (callback, old state, new state). -/
def set_state {V : Type} [DecidableEq V] (state m : List (String × V))
    (cbs : List Nat) :
    List (String × V) × List (Nat × List (String × V) × List (String × V)) :=
  let new := dictUpdate state m
  (new, if dictEqB state new then [] else cbs.map (fun c => (c, state, new)))

theorem lookupK_eq_of_mem {V : Type} {d : List (String × V)} {k : String}
    {v : V} (hnd : (d.map Prod.fst).Nodup) (hm : (k, v) ∈ d) :
    lookupK d k = some v := by
  induction d with
  | nil => exact absurd hm (List.not_mem_nil _)
  | cons hd tl ih =>
      rcases hd with ⟨a, w⟩
      rcases List.mem_cons.mp hm with h | h
      · cases h
        simp [lookupK]
      · have hknd : a ∉ tl.map Prod.fst := by
          have := hnd
          simp only [List.map_cons, List.nodup_cons] at this
          exact this.1
        have hk : k ∈ tl.map Prod.fst :=
          List.mem_map.mpr ⟨(k, v), h, rfl⟩
        have hne : a ≠ k := fun he => hknd (he ▸ hk)
        have hnd2 : (tl.map Prod.fst).Nodup := by
          have := hnd
          simp only [List.map_cons, List.nodup_cons] at this
          exact this.2
        simp [lookupK, hne, ih hnd2 h]

theorem mem_of_lookupK {V : Type} {d : List (String × V)} {k : String}
    {v : V} (h : lookupK d k = some v) : (k, v) ∈ d := by
  induction d with
  | nil => exact Option.noConfusion h
  | cons hd tl ih =>
      rcases hd with ⟨a, w⟩
      by_cases hk : a = k
      · subst hk
        rw [lookupK, if_pos rfl] at h
        cases h
        exact List.mem_cons_self _ _
      · rw [lookupK, if_neg hk] at h
        exact List.mem_cons_of_mem _ (ih h)

/-- Python dictionary equality is lookup equality, given duplicate-free
keys (always true of real Python dictionaries). -/
theorem dictEqB_iff {V : Type} [DecidableEq V] {d1 d2 : List (String × V)}
    (hnd1 : (d1.map Prod.fst).Nodup) (hnd2 : (d2.map Prod.fst).Nodup) :
    dictEqB d1 d2 = true ↔ ∀ k, lookupK d1 k = lookupK d2 k := by
  constructor
  · intro h k
    simp only [dictEqB, Bool.and_eq_true, List.all_eq_true,
               decide_eq_true_eq] at h
    obtain ⟨h1, h2⟩ := h
    cases hl : lookupK d1 k with
    | some v =>
        have hm := mem_of_lookupK hl
        exact (h1 (k, v) hm).symm
    | none =>
        cases hl2 : lookupK d2 k with
        | none => rfl
        | some w =>
            have hm := mem_of_lookupK hl2
            have h3 := h2 (k, w) hm
            rw [hl] at h3
            exact Option.noConfusion h3
  · intro h
    simp only [dictEqB, Bool.and_eq_true, List.all_eq_true,
               decide_eq_true_eq]
    constructor
    · rintro ⟨k, v⟩ hkv
      rw [← h k]
      exact lookupK_eq_of_mem hnd1 hkv
    · rintro ⟨k, v⟩ hkv
      rw [h k]
      exact lookupK_eq_of_mem hnd2 hkv

/-- Claim C7: merging a partial state map that leaves the state equal (as a
dictionary) to the current state fires no state-change callback; merging
one that changes it fires each registered callback exactly once — the
delivered list is exactly the registered callbacks in order — with the
(old state, new state) pair.  The duplicate-free-keys hypothesis holds for
every real Python dictionary. -/
theorem set_state_callbacks {V : Type} [DecidableEq V]
    (state m : List (String × V)) (cbs : List Nat)
    (hnd : (state.map Prod.fst).Nodup)
    (hndu : ((dictUpdate state m).map Prod.fst).Nodup) :
    ((∀ k, lookupK state k = lookupK (dictUpdate state m) k) →
        (set_state state m cbs).2 = [])
  ∧ ((¬ ∀ k, lookupK state k = lookupK (dictUpdate state m) k) →
        (set_state state m cbs).2
          = cbs.map (fun c => (c, state, dictUpdate state m)))
  ∧ (set_state state m cbs).1 = dictUpdate state m := by
  refine ⟨?_, ?_, rfl⟩
  · intro hk
    have heq : dictEqB state (dictUpdate state m) = true :=
      (dictEqB_iff hnd hndu).mpr hk
    simp [set_state, heq]
  · intro hk
    have hne : dictEqB state (dictUpdate state m) = false := by
      cases hb : dictEqB state (dictUpdate state m) with
      | false => rfl
      | true => exact absurd ((dictEqB_iff hnd hndu).mp hb) hk
    simp [set_state, hne]

/-- Witness for C7: updating `a` from 1 to 2 with two registered callbacks
fires both with the (old, new) pair; re-writing `a` with its current value
fires none. -/
theorem set_state_callbacks_witness :
    (set_state [("a", 1)] [("a", 2)] [0, 1]).2
      = [(0, [("a", 1)], [("a", 2)]), (1, [("a", 1)], [("a", 2)])]
  ∧ (set_state [("a", 1)] [("a", 1)] [0, 1]).2 = [] :=
  ⟨by
    have h := (set_state_callbacks [("a", 1)] [("a", 2)] [0, 1]
      (by decide) (by decide)).2.1
    have hval := h (fun hall => by
      have := hall "a"
      revert this
      decide)
    exact hval.trans (by decide),
   by
    have h := (set_state_callbacks [("a", 1)] [("a", 1)] [0, 1]
      (by decide) (by decide)).1
    exact h (fun k => rfl)⟩

/-! ### Embedding of `LLMAgent._initialize` / `_init_model_client`
(src/agents/llm_agent.py lines 20-80) and the model clients'
`validate_config` (src/model_clients)

A model configuration is represented by its key set (the values never
matter to `validate_config`).  `validate_config` requires a non-empty
configuration containing every field of the subclass's required-field
list.  No client constructor raises: DeepSeek/Qwen only read config
values, and Doubao's token fetch catches its own exceptions. -/

inductive ClientKind where
  | deepseek
  | doubao
  | qwen
  deriving Repr, DecidableEq

/-- `_get_required_config_fields` of each concrete client. -/
def required_config_fields : ClientKind → List String
  | .deepseek => ["api_key"]
  | .doubao => ["api_key", "secret_key"]
  | .qwen => ["api_key", "api_secret"]

/-- `BaseClient.validate_config`: non-empty configuration containing every
required field. -/
def validate_config (k : ClientKind) (cfg : List String) : Bool :=
  !cfg.isEmpty && (required_config_fields k).all (fun f => cfg.contains f)

/-- The `model_type` dispatch of `_init_model_client`. -/
def clientKindOf (mt : String) : Option ClientKind :=
  if pyLower mt = "deepseek" then some .deepseek
  else if pyLower mt = "doubao" then some .doubao
  else if pyLower mt = "qwen" then some .qwen
  else none

/-- The body of `_init_model_client`'s `try` block before the catch:
an unsupported model type raises `ValueError("Unsupported model type: ...")`. -/
def init_model_client_raw (mt : String) : Except String ClientKind :=
  match clientKindOf mt with
  | some k => .ok k
  | none => .error ("Unsupported model type: " ++ mt)

/-- The agent state after `LLMAgent._initialize` returns (`model_client`
plus the state-dictionary fields the claims mention). -/
structure LLMAgentState where
  modelClient : Option ClientKind
  initialized : Bool
  ready : Bool
  error : Option String
  stateModelType : Option String
  deriving Repr, DecidableEq

/-- `LLMAgent._initialize` for a given `model_type` and configuration key
set.  The `ValueError` of `_init_model_client` is caught there (setting a
transient state error that the final `set_state` then overwrites with
`"Invalid model configuration"`), so construction always completes. -/
def llm_agent_init (mt : String) (cfg : List String) : LLMAgentState :=
  match init_model_client_raw mt with
  | .ok k =>
      if validate_config k cfg then
        { modelClient := some k, initialized := true, ready := true,
          error := none, stateModelType := some mt }
      else
        { modelClient := some k, initialized := true, ready := false,
          error := some "Invalid model configuration",
          stateModelType := none }
  | .error _ =>
      { modelClient := none, initialized := true, ready := false,
        error := some "Invalid model configuration",
        stateModelType := none }

/-- Claim C5 (counterexample to the claim as stated): for the unsupported
`model_type` "gpt4" the `ValueError` (InvalidInput) is raised but caught
inside `_init_model_client`, so construction does NOT fail: the agent is
fully constructed with `initialized = true`, `ready = false` and the error
recorded in its state. -/
theorem llm_agent_unsupported_cx :
    init_model_client_raw "gpt4" = .error "Unsupported model type: gpt4"
  ∧ llm_agent_init "gpt4" ["api_key"]
      = { modelClient := none, initialized := true, ready := false,
          error := some "Invalid model configuration",
          stateModelType := none } := by
  refine ⟨by decide, by decide⟩

/-- Claim C5 (amended): an unsupported `model_type` raises InvalidInput
internally but the exception is caught, so construction succeeds with no
client, `ready = false` and error `"Invalid model configuration"`; for a
supported `model_type` the client is always created and `ready = true`
exactly when its configuration validates, with `error = none` on success
and the explanatory error otherwise. -/
theorem llm_agent_ready_amended (mt : String) (cfg : List String) :
    (clientKindOf mt = none →
        llm_agent_init mt cfg
          = { modelClient := none, initialized := true, ready := false,
              error := some "Invalid model configuration",
              stateModelType := none })
  ∧ (∀ k, clientKindOf mt = some k →
        ((llm_agent_init mt cfg).ready = true
            ↔ validate_config k cfg = true)
      ∧ (llm_agent_init mt cfg).modelClient = some k
      ∧ (validate_config k cfg = true →
            llm_agent_init mt cfg
              = { modelClient := some k, initialized := true, ready := true,
                  error := none, stateModelType := some mt })
      ∧ (validate_config k cfg = false →
            llm_agent_init mt cfg
              = { modelClient := some k, initialized := true,
                  ready := false,
                  error := some "Invalid model configuration",
                  stateModelType := none })) := by
  constructor
  · intro h
    simp [llm_agent_init, init_model_client_raw, h]
  · intro k h
    cases hv : validate_config k cfg with
    | true =>
        refine ⟨?_, ?_, ?_, ?_⟩ <;>
          simp [llm_agent_init, init_model_client_raw, h, hv]
    | false =>
        refine ⟨?_, ?_, ?_, ?_⟩ <;>
          simp [llm_agent_init, init_model_client_raw, h, hv]

/-- Witness for C5 (amended): "deepseek" with an `api_key` is ready; with
an empty configuration it is constructed but not ready. -/
theorem llm_agent_ready_amended_witness :
    llm_agent_init "deepseek" ["api_key"]
      = { modelClient := some .deepseek, initialized := true, ready := true,
          error := none, stateModelType := some "deepseek" }
  ∧ llm_agent_init "deepseek" []
      = { modelClient := some .deepseek, initialized := true, ready := false,
          error := some "Invalid model configuration",
          stateModelType := none } :=
  ⟨((llm_agent_ready_amended "deepseek" ["api_key"]).2 .deepseek
      (by decide)).2.2.1 (by decide),
   ((llm_agent_ready_amended "deepseek" []).2 .deepseek
      (by decide)).2.2.2 (by decide)⟩

/-! ### Embedding of `UserAgent.export_conversation_history`
(src/agents/user_agent.py lines 462-497)

Building `conversation_data` evaluates `self.get_state('start_time')`, but
no `get_state` method (or attribute) is defined anywhere on `UserAgent` or
`BaseAgent` — the only state accessor defined is `set_state`.  Attribute
lookup therefore raises `AttributeError`, which the method's own handler
catches, returning `{'success': False, 'error': ...}` before the file is
opened.  The method lists below are transcribed from the `def` statements
of the two classes. -/

/-- The methods defined on `BaseAgent` (src/agents/base_agent.py). -/
def baseAgentMethodNames : List String :=
  ["_initialize", "process_message", "generate_response", "get_agent_info",
   "add_message_to_history", "get_message_history", "clear_message_history",
   "set_state", "register_on_message_callback", "register_on_error_callback",
   "register_on_state_change_callback", "_trigger_on_message_callbacks",
   "_trigger_on_error_callbacks", "_trigger_on_state_change_callbacks",
   "handle_error", "validate_config"]

/-- The methods defined on `UserAgent` plus the inherited ones. -/
def userAgentMethodNames : List String :=
  ["_initialize", "process_message", "generate_response",
   "_handle_auto_response", "_handle_manual_response",
   "_handle_hybrid_response", "_generate_default_auto_response",
   "_get_default_manual_response", "_need_manual_reply",
   "set_interaction_mode", "add_auto_response", "remove_auto_response",
   "get_auto_responses", "set_user_reply_callback", "send_message",
   "display_message", "wait_for_reply", "export_conversation_history",
   "import_conversation_history"] ++ baseAgentMethodNames

/-- The observable outcome of one `export_conversation_history` call:
the returned dictionary (`.ok` = the conversation data, `.error` = the
caught-exception `{'success': False, 'error': ...}` dictionary) and the
file contents written, if any. -/
structure ExportOutcome (M : Type) where
  returned : Except String (String × String × List M)
  fileWritten : Option (String × String × List M)
  deriving Repr

/-- `UserAgent.export_conversation_history`, generic in the message type.
The first branch is what the source intends (build the data, write it when
a path is given); it is unreachable because `get_state` does not exist, so
every call takes the `AttributeError` branch with no file written. -/
def export_conversation_history (M : Type) (username mode : String)
    (history : List M) (filePath : Option String) : ExportOutcome M :=
  if userAgentMethodNames.contains "get_state" then
    { returned := .ok (username, mode, history),
      fileWritten :=
        if filePath.isSome then some (username, mode, history) else none }
  else
    { returned :=
        .error "AttributeError: UserAgent object has no attribute get_state",
      fileWritten := none }

/-- Claim C4 (the code bug, evaluated): for every `UserAgent` and every
history, exporting raises `AttributeError` internally (no `get_state`
method exists anywhere in the class hierarchy), returns the failure
dictionary, and writes no file — so the fresh agent's import can only fail
and the export/import round-trip never reproduces any history. -/
theorem export_history_attribute_error (M : Type) (username mode : String)
    (history : List M) (filePath : Option String) :
    export_conversation_history M username mode history filePath
      = { returned :=
            .error "AttributeError: UserAgent object has no attribute get_state",
          fileWritten := none }
  ∧ userAgentMethodNames.contains "get_state" = false := by
  refine ⟨?_, by decide⟩
  rw [export_conversation_history, if_neg (by decide)]

/-! ### Embedding of `ToolFunctionRegistry` (src/tools/tool_functions.py
lines 27-200)

The registry holds two dictionaries keyed by tool name: `_tool_functions`
(name → callable) and `_tool_metadata` (name → metadata).  `register`
assigns both under the same name (replace-or-append), `unregister` deletes
both when the name is in `_tool_functions` (and does nothing otherwise),
`clear` empties both.  Callables and metadata values are opaque type
parameters. -/

/-- Python `del d[k]`: remove the (first, and with duplicate-free keys the
only) entry with key `k`. -/
def removeKey {V : Type} : List (String × V) → String → List (String × V)
  | [], _ => []
  | (a, w) :: rest, k => if a = k then rest else (a, w) :: removeKey rest k

structure ToolFunctionRegistry (F M : Type) where
  tool_functions : List (String × F)
  tool_metadata : List (String × M)
  deriving Repr

/-- One registry operation of the claim's trace language. -/
inductive RegOp (F M : Type) where
  | registerOp (n : String) (f : F) (meta : M)
  | unregisterOp (n : String)
  | clearOp

/-- `ToolFunctionRegistry.register` / `unregister` / `clear`. -/
def applyRegOp {F M : Type} (r : ToolFunctionRegistry F M) :
    RegOp F M → ToolFunctionRegistry F M
  | .registerOp n f meta =>
      { tool_functions := setKey r.tool_functions n f,
        tool_metadata := setKey r.tool_metadata n meta }
  | .unregisterOp n =>
      if (lookupK r.tool_functions n).isSome then
        { tool_functions := removeKey r.tool_functions n,
          tool_metadata := removeKey r.tool_metadata n }
      else r
  | .clearOp => { tool_functions := [], tool_metadata := [] }

/-- `ToolFunctionRegistry.get_tool`. -/
def get_tool {F M : Type} (r : ToolFunctionRegistry F M) (n : String) :
    Option F :=
  lookupK r.tool_functions n

/-- `ToolFunctionRegistry.get_metadata`. -/
def get_metadata {F M : Type} (r : ToolFunctionRegistry F M) (n : String) :
    Option M :=
  lookupK r.tool_metadata n

/-- A freshly constructed registry followed by a sequence of operations. -/
def runRegOps {F M : Type} (ops : List (RegOp F M)) :
    ToolFunctionRegistry F M :=
  ops.foldl applyRegOp { tool_functions := [], tool_metadata := [] }

theorem setKey_map_fst_eq {V W : Type} (d1 : List (String × V))
    (d2 : List (String × W)) (k : String) (v : V) (w : W)
    (h : d1.map Prod.fst = d2.map Prod.fst) :
    (setKey d1 k v).map Prod.fst = (setKey d2 k w).map Prod.fst := by
  induction d1 generalizing d2 with
  | nil =>
      cases d2 with
      | nil => rfl
      | cons b tl2 => exact absurd h (by simp)
  | cons a tl ih =>
      cases d2 with
      | nil => exact absurd h (by simp)
      | cons b tl2 =>
          rcases a with ⟨ak, av⟩
          rcases b with ⟨bk, bv⟩
          simp only [List.map_cons, List.cons.injEq] at h
          obtain ⟨hk, ht⟩ := h
          subst hk
          by_cases he : ak = k
          · simp [setKey, he, ht]
          · simp [setKey, he, ih tl2 ht]

theorem removeKey_map_fst_eq {V W : Type} (d1 : List (String × V))
    (d2 : List (String × W)) (k : String)
    (h : d1.map Prod.fst = d2.map Prod.fst) :
    (removeKey d1 k).map Prod.fst = (removeKey d2 k).map Prod.fst := by
  induction d1 generalizing d2 with
  | nil =>
      cases d2 with
      | nil => rfl
      | cons b tl2 => exact absurd h (by simp)
  | cons a tl ih =>
      cases d2 with
      | nil => exact absurd h (by simp)
      | cons b tl2 =>
          rcases a with ⟨ak, av⟩
          rcases b with ⟨bk, bv⟩
          simp only [List.map_cons, List.cons.injEq] at h
          obtain ⟨hk, ht⟩ := h
          subst hk
          by_cases he : ak = k
          · simp [removeKey, he, ht]
          · simp [removeKey, he, ih tl2 ht]

theorem lookupK_isSome_eq {V W : Type} (d1 : List (String × V))
    (d2 : List (String × W)) (k : String)
    (h : d1.map Prod.fst = d2.map Prod.fst) :
    (lookupK d1 k).isSome = (lookupK d2 k).isSome := by
  induction d1 generalizing d2 with
  | nil =>
      cases d2 with
      | nil => rfl
      | cons b tl2 => exact absurd h (by simp)
  | cons a tl ih =>
      cases d2 with
      | nil => exact absurd h (by simp)
      | cons b tl2 =>
          rcases a with ⟨ak, av⟩
          rcases b with ⟨bk, bv⟩
          simp only [List.map_cons, List.cons.injEq] at h
          obtain ⟨hk, ht⟩ := h
          subst hk
          by_cases he : ak = k
          · simp [lookupK, he]
          · simp [lookupK, he, ih tl2 ht]

/-- The key sets of the two maps stay equal across one operation. -/
theorem applyRegOp_keys {F M : Type} (r : ToolFunctionRegistry F M)
    (op : RegOp F M)
    (h : r.tool_functions.map Prod.fst = r.tool_metadata.map Prod.fst) :
    (applyRegOp r op).tool_functions.map Prod.fst
      = (applyRegOp r op).tool_metadata.map Prod.fst := by
  cases op with
  | registerOp n f meta =>
      exact setKey_map_fst_eq _ _ n f meta h
  | unregisterOp n =>
      by_cases hs : (lookupK r.tool_functions n).isSome
      · simp only [applyRegOp, hs, if_true]
        exact removeKey_map_fst_eq _ _ n h
      · simp only [applyRegOp, hs, if_false]
        exact h
  | clearOp => rfl

theorem runRegOps_keys {F M : Type} (ops : List (RegOp F M)) :
    (runRegOps ops).tool_functions.map Prod.fst
      = (runRegOps ops).tool_metadata.map Prod.fst := by
  have main : ∀ (ops : List (RegOp F M)) (r : ToolFunctionRegistry F M),
      r.tool_functions.map Prod.fst = r.tool_metadata.map Prod.fst →
      (ops.foldl applyRegOp r).tool_functions.map Prod.fst
        = (ops.foldl applyRegOp r).tool_metadata.map Prod.fst := by
    intro ops
    induction ops with
    | nil => intro r h; exact h
    | cons op tl ih =>
        intro r h
        exact ih (applyRegOp r op) (applyRegOp_keys r op h)
  exact main ops { tool_functions := [], tool_metadata := [] } rfl

/-- Claim C10: after any sequence of register/unregister/clear operations
on a fresh `ToolFunctionRegistry`, the name sets of the internal function
map and metadata map coincide (as ordered key lists), and `get_tool(n)`
returns a callable exactly when `get_metadata(n)` returns metadata. -/
theorem registry_maps_consistent (F M : Type) (ops : List (RegOp F M)) :
    (runRegOps ops).tool_functions.map Prod.fst
      = (runRegOps ops).tool_metadata.map Prod.fst
  ∧ ∀ n, (get_tool (runRegOps ops) n).isSome
      = (get_metadata (runRegOps ops) n).isSome := by
  refine ⟨runRegOps_keys ops, ?_⟩
  intro n
  exact lookupK_isSome_eq _ _ n (runRegOps_keys ops)

end AIAgent
